import Mathlib

/-!
Verification development for the `fontstash-rs` wrapper crate.

The Rust crate under `src/src/lib.rs` is a thin safe wrapper over the C
`fontstash` library (pulled in by `fontstash-sys` as a git submodule, so the C
sources are not part of this repository checkout).  The Rust-side logic is
embedded directly from `src/src/lib.rs`; the C entry points it calls
(`fonsTextIterInit`, `fonsPushState`, `fonsExpandAtlas`, ...) are modelled from
the specification, each such definition carrying a doc comment that starts with
`Modelled from the spec:`.

Machine integers are modelled as `Nat`/`Int`; the `as u32` cast is made
explicit where it matters.  Floating point coordinates are modelled as `Int`:
none of the verified properties depends on rounding behaviour, only on which
arithmetic expressions the code computes.
-/

set_option autoImplicit false
set_option linter.unusedVariables false

namespace Fontstash

/-- Modelled from the spec: the out-of-band error-notification codes form the
four-element set AtlasFull, ScratchFull, StatesOverflow, StatesUnderflow; the
numeric values are the ones the upstream `fontstash.h` header (compiled by
`fontstash-sys/build.rs`) assigns to `FONSerrorCode`, starting at 1. -/
def FONS_ATLAS_FULL : Nat := 1

/-- Modelled from the spec: numeric value of the ScratchFull error code. -/
def FONS_SCRATCH_FULL : Nat := 2

/-- Modelled from the spec: numeric value of the StatesOverflow error code. -/
def FONS_STATES_OVERFLOW : Nat := 3

/-- Modelled from the spec: numeric value of the StatesUnderflow error code. -/
def FONS_STATES_UNDERFLOW : Nat := 4

/-- Modelled from the spec: the distinguished invalid font index sentinel
(`FONS_INVALID`), a negative value (−1) distinct from every valid index. -/
def FONS_INVALID : Int := -1

/-- Error type of the wrapper, from `src/src/lib.rs` (`enum FonsError`). -/
inductive FonsError where
  | failedToAllocFont
  | foundNoFont
  | renderResizeError
  deriving DecidableEq, Repr

/-- Error codes the wrapper can decode, from `src/src/lib.rs` (`enum
ErrorCode`).  Note the enum has exactly three variants: the wrapper defines no
variant for the atlas-full code. -/
inductive ErrorCode where
  | scratchFull
  | statesOverflow
  | statesUnderflow
  deriving DecidableEq, Repr

/-- Embeds `ErrorCode::from_u32` from `src/src/lib.rs`: matches the raw code
against the three `FONSerrorCode` constants the enum covers and returns `none`
for anything else. -/
def ErrorCode.from_u32 (x : Nat) : Option ErrorCode :=
  if x = FONS_SCRATCH_FULL then some ErrorCode.scratchFull
  else if x = FONS_STATES_OVERFLOW then some ErrorCode.statesOverflow
  else if x = FONS_STATES_UNDERFLOW then some ErrorCode.statesUnderflow
  else none

/-- Modelled from the spec: `fonsExpandAtlas` reports success as the boolean
`1` exactly when the host renderer's resize/create callback reports success
(all boolean returns of false/zero from the renderer are fatal for the
operation), and `0` otherwise. -/
def fonsExpandAtlas (w h : Nat) (renderOk : Bool) : Int :=
  if renderOk then 1 else 0

/-- Modelled from the spec: `fonsResetAtlas` reports success as the boolean
`1` exactly when the host renderer's resize/create callback reports success,
and `0` otherwise. -/
def fonsResetAtlas (w h : Nat) (renderOk : Bool) : Int :=
  if renderOk then 1 else 0

/-- Embeds `FontStash::expand_atlas` from `src/src/lib.rs`: `Ok(())` when the
C call returns nonzero, otherwise `Err(RenderResizeError)`.  The boolean that
the host renderer callback returned is passed explicitly. -/
def expand_atlas (w h : Nat) (renderOk : Bool) : Except FonsError Unit :=
  if fonsExpandAtlas w h renderOk ≠ 0 then Except.ok ()
  else Except.error FonsError.renderResizeError

/-- Embeds `FontStash::reset_atlas` from `src/src/lib.rs`: `Ok(())` when the
C call returns `1`, otherwise `Err(RenderResizeError)`. -/
def reset_atlas (w h : Nat) (renderOk : Bool) : Except FonsError Unit :=
  if fonsResetAtlas w h renderOk = 1 then Except.ok ()
  else Except.error FonsError.renderResizeError

/-- Font index newtype, from `src/src/lib.rs` (`struct FontIx(u32)`). -/
structure FontIx where
  val : Nat
  deriving DecidableEq, Repr

/-- The Rust `as u32` cast on a (wrapping) machine integer. -/
def u32cast (i : Int) : Nat :=
  (i % (2 ^ 32 : Nat)).toNat

/-- Embeds `FontStash::add_font_mem` from `src/src/lib.rs`.  The index the C
font engine returned from `fonsAddFontMem` is passed explicitly as
`engineIx`; the wrapper compares it with `FONS_INVALID` and otherwise wraps
the `as u32` cast of it. -/
def add_font_mem (name : String) (data : List Nat) (engineIx : Int) :
    Except FonsError FontIx :=
  if engineIx = FONS_INVALID then Except.error FonsError.failedToAllocFont
  else Except.ok ⟨u32cast engineIx⟩

/-- Style state, from the spec's data model (font index, pixel size, packed
RGBA color, horizontal spacing adjustment, blur radius, alignment flags).  The
font index is an `Int` so the unset sentinel `FONS_INVALID` is representable. -/
structure StyleState where
  font : Int
  size : Nat
  color : Nat
  spacing : Int
  blur : Nat
  align : Nat
  deriving DecidableEq, Repr

/-- Modelled from the spec: the initial style state has the current font
unset (the invalid sentinel), no blur, left+baseline alignment. -/
def defaultStyleState : StyleState :=
  { font := FONS_INVALID, size := 12, color := 0xffffffff,
    spacing := 0, blur := 0, align := 0 }

/-- Glyph cache key, from the spec's data model: (font index, codepoint,
quantized size, quantized blur, subpixel fractional-position bucket). -/
structure GKey where
  font : Int
  cp : Nat
  isize : Nat
  iblur : Nat
  isubx : Nat
  deriving DecidableEq, Repr

/-- Modelled from the spec: the subpixel fractional-position bucket of a pen
x-position, a fixed small number of buckets.  With the integer coordinates of
this model the bucket is the pen position reduced modulo the bucket count. -/
def subpixelBucket (pen : Int) : Nat :=
  (pen % 4).toNat

/-- Rectangle allocated in the atlas (position and size in texture pixels). -/
structure Rect where
  x : Nat
  y : Nat
  w : Nat
  h : Nat
  deriving DecidableEq, Repr

/-- Cached glyph record, from the spec's data model: atlas rectangle,
horizontal advance, and bearing offsets relative to the pen position. -/
structure Glyph where
  rect : Rect
  xadv : Int
  xoff : Int
  yoff : Int
  deriving DecidableEq, Repr

/-- Metrics the font engine reports for one glyph: bitmap size, advance and
bearing offsets. -/
structure GlyphMetrics where
  w : Nat
  h : Nat
  xadv : Int
  xoff : Int
  yoff : Int
  deriving DecidableEq, Repr

/-- Modelled from the spec: the font engine is an opaque deterministic
capability producing a glyph's metrics/bitmap for a cache key, plus a kerning
adjustment against the previous glyph (`none` when there is no previous
glyph). -/
structure FontEngine where
  metrics : GKey → GlyphMetrics
  kern : Option Nat → Nat → Int

/-- Modelled from the spec: the atlas packer state of a shelf packer over a
`width × height` texture — current shelf cursor `px`, shelf top `py`, and
current shelf (row) height `rowh`. -/
structure Atlas where
  width : Nat
  height : Nat
  px : Nat
  py : Nat
  rowh : Nat
  deriving DecidableEq, Repr

/-- Modelled from the spec: shelf-packer allocation.  Places the rectangle at
the current cursor when the current shelf has room, otherwise starts a new
shelf above it; fails (`none`) when the texture's bottom boundary would be
crossed. -/
def Atlas.alloc (a : Atlas) (w h : Nat) : Option (Rect × Atlas) :=
  if a.px + w ≤ a.width then
    if a.py + h ≤ a.height then
      some (⟨a.px, a.py, w, h⟩,
        { a with px := a.px + w, rowh := max a.rowh h })
    else none
  else
    if w ≤ a.width then
      if a.py + a.rowh + h ≤ a.height then
        some (⟨0, a.py + a.rowh, w, h⟩,
          { a with px := w, py := a.py + a.rowh, rowh := h })
      else none
    else none

/-- Modelled from the spec: the atlas expand operation the glyph cache uses
on an allocation failure — double one dimension (the height), preserving the
width; existing rectangles stay valid, the skyline state is untouched. -/
def Atlas.expand (a : Atlas) : Atlas :=
  { a with height := a.height * 2 }

/-- Glyph cache: association list from keys to glyph records (most recent
insertion first). -/
abbrev Cache : Type := List (GKey × Glyph)

/-- Lookup in the glyph cache. -/
def cacheFind (c : Cache) (k : GKey) : Option Glyph :=
  match c with
  | [] => none
  | (k', g) :: rest => if k' = k then some g else cacheFind rest k

/-- Modelled from the spec: the glyph cache's get-or-rasterize operation.  On
a hit it returns the cached record without touching the atlas.  On a miss it
queries the font engine and allocates atlas space; on allocation failure it
attempts one atlas expand and retries the allocation once; if the retry also
fails the glyph is dropped (`none`), the cache is unchanged, and the already
performed expansion persists. -/
def getGlyph (eng : FontEngine) (c : Cache) (a : Atlas) (k : GKey) :
    Option Glyph × Cache × Atlas :=
  match cacheFind c k with
  | some g => (some g, c, a)
  | none =>
    let m := eng.metrics k
    match a.alloc m.w m.h with
    | some (r, a') =>
      let g : Glyph := ⟨r, m.xadv, m.xoff, m.yoff⟩
      (some g, (k, g) :: c, a')
    | none =>
      match (a.expand).alloc m.w m.h with
      | some (r, a') =>
        let g : Glyph := ⟨r, m.xadv, m.xoff, m.yoff⟩
        (some g, (k, g) :: c, a')
      | none => (none, c, a.expand)

/-- Quad value, with the field names of `FONSquad` (`src/src/lib.rs` re-exports
it as `FonsQuad`): screen-space rectangle `x0,y0,x1,y1` and atlas rectangle
`s0,t0,s1,t1`. -/
structure FonsQuad where
  x0 : Int
  y0 : Int
  s0 : Int
  t0 : Int
  x1 : Int
  y1 : Int
  s1 : Int
  t1 : Int
  deriving DecidableEq, Repr

/-- Quad produced for one glyph at a given pen x-position: screen rectangle
from the pen position plus the glyph bearings, atlas rectangle from the
glyph's cached atlas rectangle. -/
def mkQuad (pen : Int) (g : Glyph) : FonsQuad :=
  { x0 := pen + g.xoff
    y0 := g.yoff
    x1 := pen + g.xoff + g.rect.w
    y1 := g.yoff + g.rect.h
    s0 := g.rect.x
    t0 := g.rect.y
    s1 := g.rect.x + g.rect.w
    t1 := g.rect.y + g.rect.h }

/-- Cache key for a codepoint under a style snapshot at a kerning-adjusted
pen position (the subpixel bucket of that position enters the key). -/
def gkey (st : StyleState) (cp : Nat) (pen : Int) : GKey :=
  ⟨st.font, cp, st.size, st.blur, subpixelBucket pen⟩

/-- Modelled from the spec: the text layout loop driven by
`FonsTextIter::next` (`fonsTextIterNext`).  For each codepoint: apply the
kerning adjustment against the previous glyph, get-or-rasterize the glyph,
emit one quad, and advance the pen by the glyph advance plus the style's
spacing.  A glyph the cache drops (atlas still full after the expand-retry)
is skipped: no quad, the pen does not advance, the previous-glyph marker is
reset — but the cache/atlas state the failed attempt left (the persisting
expansion) is carried forward. -/
def runFrom (eng : FontEngine) (st : StyleState) :
    List Nat → Cache → Atlas → Int → Option Nat → List FonsQuad × Cache × Atlas
  | [], c, a, pen, prev => ([], c, a)
  | cp :: rest, c, a, pen, prev =>
    let pen1 := pen + eng.kern prev cp
    match getGlyph eng c a (gkey st cp pen1) with
    | (some g, c', a') =>
      let q := mkQuad pen1 g
      let r := runFrom eng st rest c' a' (pen1 + g.xadv + st.spacing) (some cp)
      (q :: r.1, r.2)
    | (none, c', a') => runFrom eng st rest c' a' pen none

/-- Font table entry, from the spec's data model: caller-chosen name plus the
owned copy of the raw font-file bytes. -/
structure Font where
  name : String
  data : List Nat
  deriving DecidableEq, Repr

/-- Contents of one `FONScontext`: font table, atlas packer state, glyph
cache, and the style state stack (head of the list is the top / current
state). -/
structure CtxState where
  fonts : List Font
  atlas : Atlas
  cache : Cache
  states : List StyleState
  deriving DecidableEq, Repr

/-- Embeds `struct FonsContextDrop` from `src/src/lib.rs`: the owner of the
raw `*mut FONScontext`, with `none` standing for the null pointer. -/
structure FonsContextDrop where
  raw : Option Nat
  deriving DecidableEq, Repr

/-- Embeds `FonsContextDrop::drop` from `src/src/lib.rs` as the list of
`fonsDeleteInternal` calls it performs: one call on the stored pointer when
it is non-null, none when it is null. -/
def FonsContextDrop.drop (c : FonsContextDrop) : List Nat :=
  match c.raw with
  | some p => [p]
  | none => []

/-- Embeds `struct FontStash` from `src/src/lib.rs`: a handle holding an
`Rc<FonsContextDrop>`, modelled as the identifier of the reference-counted
heap cell. -/
structure FontStash where
  fonsId : Nat
  deriving DecidableEq, Repr

/-- Heap model for the reference-counted handles: the strong count and the
contents of each `Rc` cell, and the `FONScontext` memory reachable through
each raw pointer. -/
structure World where
  rcCount : Nat → Nat
  rcCell : Nat → FonsContextDrop
  ctxMem : Nat → CtxState

/-- Embeds `FontStash::raw` from `src/src/lib.rs`: the raw context pointer
stored in the handle's `Rc` cell. -/
def FontStash.raw (w : World) (s : FontStash) : Option Nat :=
  (w.rcCell s.fonsId).raw

/-- Embeds `FontStash::clone` from `src/src/lib.rs`: an `Rc::clone`, i.e. the
strong count of the shared cell is incremented and the very same cell is
referenced by the new handle; no context state is copied or altered. -/
def FontStash.clone (w : World) (s : FontStash) : World × FontStash :=
  ({ w with
      rcCount := fun i => if i = s.fonsId then w.rcCount i + 1 else w.rcCount i },
    ⟨s.fonsId⟩)

/-- Embeds `FontStash::uninitialized` from `src/src/lib.rs`: allocates a fresh
`Rc` cell (at the given fresh identifier) holding a null raw pointer, with
strong count 1, and returns a handle to it. -/
def FontStash.uninitialized (freshId : Nat) (w : World) : World × FontStash :=
  ({ w with
      rcCount := fun i => if i = freshId then 1 else w.rcCount i,
      rcCell := fun i => if i = freshId then ⟨none⟩ else w.rcCell i },
    ⟨freshId⟩)

/-- Context state a handle refers to (null handles are outside the model:
dereferencing them is the caller's contract in the Rust code as well). -/
def World.ctxOf (w : World) (s : FontStash) : CtxState :=
  w.ctxMem ((FontStash.raw w s).getD 0)

/-- Current (top) style state of a context. -/
def CtxState.cur (c : CtxState) : StyleState :=
  c.states.headD defaultStyleState

/-- Modelled from the spec: `fonsTextIterInit` succeeds (returns 1) exactly
when the current style's font index is a valid index into the font table, and
fails (returns 0) when it is unset/invalid — checked up front, before any
codepoint is processed. -/
def fonsTextIterInit (ctx : CtxState) : Int :=
  if 0 ≤ ctx.cur.font ∧ ctx.cur.font < ctx.fonts.length then 1 else 0

/-- Embeds `struct FonsTextIter` from `src/src/lib.rs`: the shared handle to
the stash, the C iterator state (style snapshot, remaining codepoints, pen
position, previous-glyph marker), and the `is_running` flag. -/
structure FonsTextIter where
  stash : FontStash
  snap : StyleState
  cps : List Nat
  pen : Int
  prev : Option Nat
  is_running : Bool
  deriving DecidableEq, Repr

/-- Embeds `FonsTextIter::from_text` from `src/src/lib.rs`: runs
`fonsTextIterInit` and returns `Err(FoundNoFont)` when it reports 0 — before
any codepoint is processed — and otherwise an iterator holding a cloned
(shared) handle to the stash. -/
def FonsTextIter.from_text (w : World) (stash : FontStash) (text : List Nat) :
    Except FonsError FonsTextIter :=
  if fonsTextIterInit (w.ctxOf stash) = 0 then Except.error FonsError.foundNoFont
  else
    Except.ok
      { stash := (FontStash.clone w stash).2
        snap := (w.ctxOf stash).cur
        cps := text
        pen := 0
        prev := none
        is_running := fonsTextIterInit (w.ctxOf stash) = 1 }

/-- Embeds `FontStash::text_iter` from `src/src/lib.rs`, which forwards to
`FonsTextIter::from_text` with a cloned handle. -/
def text_iter (w : World) (stash : FontStash) (text : List Nat) :
    Except FonsError FonsTextIter :=
  FonsTextIter.from_text w stash text

/-- Quads the wrapper's `Iterator::next` loop yields for a `text_iter`
result: none at all on a construction error, none when `is_running` is
false, and otherwise the quads of the layout loop `runFrom`. -/
def textIterQuads (eng : FontEngine) (ctx : CtxState)
    (r : Except FonsError FonsTextIter) : List FonsQuad :=
  match r with
  | Except.error _ => []
  | Except.ok it =>
    if it.is_running then
      (runFrom eng it.snap it.cps ctx.cache ctx.atlas it.pen it.prev).1
    else []

/-- Modelled from the spec: the fixed maximum depth of the style state
stack. -/
def FONS_MAX_STATES : Nat := 20

/-- Modelled from the spec: `fonsPushState` duplicates the current top onto
the stack, except that when the fixed maximum depth is already reached it
leaves the stack unchanged and reports the StatesOverflow code through the
error callback (the second component lists the reported codes). -/
def fonsPushState (st : List StyleState) : List StyleState × List Nat :=
  if FONS_MAX_STATES ≤ st.length then (st, [FONS_STATES_OVERFLOW])
  else
    match st with
    | [] => ([], [])
    | top :: rest => (top :: top :: rest, [])

/-- Modelled from the spec: `fonsPopState` removes the top state, except that
when only one state remains it leaves the stack unchanged and reports the
StatesUnderflow code through the error callback — the base state is never
popped. -/
def fonsPopState (st : List StyleState) : List StyleState × List Nat :=
  if st.length ≤ 1 then (st, [FONS_STATES_UNDERFLOW])
  else (st.tail, [])

/-- Atlas texture data as returned by `fonsGetTextureData`: the texel memory
(one byte per texel) and the atlas width and height. -/
structure TexData where
  data : Nat → Nat
  w : Nat
  h : Nat

/-- Embeds `FontStash::with_pixels` from `src/src/lib.rs` as the list of
callback invocations it performs, each invocation recorded as the byte slice
(`slice::from_raw_parts(ptr, w * h)`) together with the width and height
passed to the callback.  A null pointer from `fonsGetTextureData` (`none`)
results in no invocation. -/
def with_pixels (t : Option TexData) : List (List Nat × Nat × Nat) :=
  match t with
  | some td => [((List.range (td.w * td.h)).map td.data, td.w, td.h)]
  | none => []

/-- Bounds quadruple filled in by `fonsTextBounds`:
`[left_x, top_y, right_x, bottom_y]`. -/
structure FonsBounds where
  minx : Int
  miny : Int
  maxx : Int
  maxy : Int
  deriving DecidableEq, Repr

/-- Embeds `FontStash::text_bounds_oneline` from `src/src/lib.rs`: calls
`fonsTextBounds` at the given position over the whole byte span of the text
and returns the bounds it filled in.  The C measurement function is passed
explicitly as `tb` (position, then text). -/
def text_bounds_oneline (tb : Int → Int → List Nat → FonsBounds)
    (pos : Int × Int) (text : List Nat) : FonsBounds :=
  tb pos.1 pos.2 text

/-- Embeds `FontStash::text_size_oneline` from `src/src/lib.rs`: calls
`fonsTextBounds` at the origin and returns the componentwise differences
`[maxx - minx, maxy - miny]`. -/
def text_size_oneline (tb : Int → Int → List Nat → FonsBounds)
    (text : List Nat) : Int × Int :=
  let bounds := tb 0 0 text
  (bounds.maxx - bounds.minx, bounds.maxy - bounds.miny)

/-- Default atlas packer state used by concrete examples. -/
def defaultAtlas : Atlas :=
  { width := 512, height := 512, px := 0, py := 0, rowh := 0 }

/-- Context with no fonts loaded and the initial style state. -/
def emptyCtx : CtxState :=
  { fonts := [], atlas := defaultAtlas, cache := [], states := [defaultStyleState] }

/-- World with a single context (all raw pointers resolve to `emptyCtx`). -/
def emptyWorld : World :=
  { rcCount := fun _ => 1, rcCell := fun _ => ⟨some 0⟩, ctxMem := fun _ => emptyCtx }

/-- Style state whose current font is the valid index 0. -/
def readyStyle : StyleState :=
  { defaultStyleState with font := 0 }

/-- Context with one font loaded and that font selected as current. -/
def readyCtx : CtxState :=
  { fonts := [⟨"sans", [0, 1, 0, 0]⟩], atlas := defaultAtlas, cache := [],
    states := [readyStyle] }

/-- World with a single context that has a font loaded and selected. -/
def readyWorld : World :=
  { rcCount := fun _ => 1, rcCell := fun _ => ⟨some 0⟩, ctxMem := fun _ => readyCtx }

/-- Font engine giving every glyph a 1×1 bitmap and unit advance. -/
def trivialEngine : FontEngine :=
  { metrics := fun _ => { w := 1, h := 1, xadv := 1, xoff := 0, yoff := 0 },
    kern := fun _ _ => 0 }

/-- Deliberately tiny atlas (1×1) that forces allocation failures. -/
def tinyAtlas : Atlas :=
  { width := 1, height := 1, px := 0, py := 0, rowh := 0 }

/-- Font engine whose glyphs (1×4 bitmaps) overflow a tiny atlas. -/
def bigGlyphEngine : FontEngine :=
  { metrics := fun _ => { w := 1, h := 4, xadv := 1, xoff := 0, yoff := 0 },
    kern := fun _ _ => 0 }

/-- C2: for every width and height, `expand_atlas` and `reset_atlas` return
`Ok(())` exactly when the underlying atlas operation reports success (the
nonzero boolean return), and `Err(RenderResizeError)` exactly when the host
renderer's resize/create callback signals failure by returning false/zero. -/
theorem expand_reset_atlas_ok_iff (w h : Nat) (renderOk : Bool) :
    (expand_atlas w h renderOk = Except.ok () ↔ renderOk = true) ∧
    (expand_atlas w h renderOk = Except.error FonsError.renderResizeError ↔
      renderOk = false) ∧
    (reset_atlas w h renderOk = Except.ok () ↔ renderOk = true) ∧
    (reset_atlas w h renderOk = Except.error FonsError.renderResizeError ↔
      renderOk = false) := by
  cases renderOk <;>
    simp [expand_atlas, reset_atlas, fonsExpandAtlas, fonsResetAtlas]

/-- C3: `add_font_mem` returns `Err(FailedToAllocFont)` if and only if the
font engine returned the `FONS_INVALID` sentinel, and otherwise returns `Ok`
with exactly the index the engine assigned.  The hypothesis states what the
engine can return: the sentinel, or a valid nonnegative index (a C `int`, in
particular below 2^32). -/
theorem add_font_mem_spec (name : String) (data : List Nat) (ix : Int)
    (h : ix = FONS_INVALID ∨ (0 ≤ ix ∧ ix < 2 ^ 32)) :
    (add_font_mem name data ix = Except.error FonsError.failedToAllocFont ↔
      ix = FONS_INVALID) ∧
    (ix ≠ FONS_INVALID → add_font_mem name data ix = Except.ok ⟨ix.toNat⟩) := by
  rcases h with h | ⟨h0, h1⟩
  · subst h
    refine ⟨by simp [add_font_mem], fun hne => absurd rfl hne⟩
  · have hne : ix ≠ FONS_INVALID := by
      intro hc
      rw [hc] at h0
      exact absurd h0 (by decide)
    have hcast : u32cast ix = ix.toNat := by
      unfold u32cast
      rw [Int.emod_eq_of_lt h0 (by exact_mod_cast h1)]
    refine ⟨?_, fun _ => ?_⟩
    · simp [add_font_mem, hne]
    · simp [add_font_mem, hne, hcast]

/-- Witness for C3 at the concrete engine results 5 and −1. -/
theorem add_font_mem_spec_witness :
    (add_font_mem "sans" [0] 5 = Except.ok ⟨5⟩) ∧
    (add_font_mem "sans" [0] (-1) = Except.error FonsError.failedToAllocFont) :=
  ⟨(add_font_mem_spec "sans" [0] 5 (Or.inr ⟨by decide, by decide⟩)).2 (by decide),
   (add_font_mem_spec "sans" [0] (-1) (Or.inl rfl)).1.mpr rfl⟩

/-- C4 counterexample: the claim says `ErrorCode::from_u32` returns `Some` of
a corresponding variant for each of the four documented codes, but for the
AtlasFull code it returns `None` — the wrapper's enum has no such variant. -/
theorem from_u32_atlas_full_is_none :
    ErrorCode.from_u32 FONS_ATLAS_FULL = none := by decide

/-- C4 (amended): the error-callback codes are drawn from the four-element
set, but the wrapper decodes only three of them: `from_u32` returns `Some` of
the corresponding variant for ScratchFull, StatesOverflow and StatesUnderflow,
returns `None` for AtlasFull, and the wrapper's `ErrorCode` enum has exactly
those three variants. -/
theorem from_u32_decodes_three_codes :
    ErrorCode.from_u32 FONS_SCRATCH_FULL = some ErrorCode.scratchFull ∧
    ErrorCode.from_u32 FONS_STATES_OVERFLOW = some ErrorCode.statesOverflow ∧
    ErrorCode.from_u32 FONS_STATES_UNDERFLOW = some ErrorCode.statesUnderflow ∧
    ErrorCode.from_u32 FONS_ATLAS_FULL = none ∧
    (∀ c : ErrorCode, c = ErrorCode.scratchFull ∨ c = ErrorCode.statesOverflow ∨
      c = ErrorCode.statesUnderflow) := by
  refine ⟨by decide, by decide, by decide, by decide, fun c => ?_⟩
  cases c
  · exact Or.inl rfl
  · exact Or.inr (Or.inl rfl)
  · exact Or.inr (Or.inr rfl)

/-- C5: pushing the style state at the fixed maximum stack depth fails with
the StatesOverflow code reported through the error callback (which the
wrapper decodes to `StatesOverflow`) and leaves the stack unchanged; popping
when only one state remains fails with the StatesUnderflow code and leaves
the stack unchanged; and on any nonempty stack a pop never removes the base
state. -/
theorem state_stack_bounds (st : List StyleState) :
    (FONS_MAX_STATES ≤ st.length →
      fonsPushState st = (st, [FONS_STATES_OVERFLOW]) ∧
      ErrorCode.from_u32 FONS_STATES_OVERFLOW = some ErrorCode.statesOverflow) ∧
    (st.length = 1 →
      fonsPopState st = (st, [FONS_STATES_UNDERFLOW]) ∧
      ErrorCode.from_u32 FONS_STATES_UNDERFLOW = some ErrorCode.statesUnderflow) ∧
    (st ≠ [] →
      (fonsPopState st).1 ≠ [] ∧ (fonsPopState st).1.getLast? = st.getLast?) := by
  refine ⟨fun hlen => ⟨by simp [fonsPushState, hlen], by decide⟩,
    fun hlen => ⟨by simp [fonsPopState, hlen], by decide⟩, fun hne => ?_⟩
  match st with
  | [] => exact absurd rfl hne
  | [a] =>
    constructor
    · simp [fonsPopState]
    · simp [fonsPopState]
  | a :: b :: l =>
    have hcond : ¬ (a :: b :: l).length ≤ 1 := by simp
    constructor
    · simp [fonsPopState, hcond]
    · simp only [fonsPopState, if_neg hcond, List.tail_cons]
      exact List.getLast?_cons_cons.symm

/-- Witness for C5: a full stack rejects a push with the overflow report, a
singleton stack rejects a pop with the underflow report, and a two-element
stack pops down to (exactly) its base state. -/
theorem state_stack_bounds_witness :
    fonsPushState (List.replicate 20 defaultStyleState) =
      (List.replicate 20 defaultStyleState, [FONS_STATES_OVERFLOW]) ∧
    fonsPopState [defaultStyleState] =
      ([defaultStyleState], [FONS_STATES_UNDERFLOW]) ∧
    (fonsPopState [readyStyle, defaultStyleState]).1 ≠ [] ∧
    (fonsPopState [readyStyle, defaultStyleState]).1.getLast? =
      [readyStyle, defaultStyleState].getLast? :=
  ⟨((state_stack_bounds (List.replicate 20 defaultStyleState)).1 (by decide)).1,
   ((state_stack_bounds [defaultStyleState]).2.1 rfl).1,
   ((state_stack_bounds [readyStyle, defaultStyleState]).2.2 (by decide)).1,
   ((state_stack_bounds [readyStyle, defaultStyleState]).2.2 (by decide)).2⟩

/-- C7: whenever `with_pixels` obtains a non-null texture-data pointer, it
invokes the callback exactly once, with the byte slice of length
width × height (one byte per texel) and the current atlas width and height. -/
theorem with_pixels_calls_once (td : TexData) :
    with_pixels (some td) =
      [((List.range (td.w * td.h)).map td.data, td.w, td.h)] ∧
    (with_pixels (some td)).length = 1 ∧
    ((List.range (td.w * td.h)).map td.data).length = td.w * td.h := by
  refine ⟨rfl, rfl, ?_⟩
  rw [List.length_map, List.length_range]

/-- C9: a handle created by `uninitialized` stores a null raw context pointer,
and dropping its cell performs no `fonsDeleteInternal` call; in general the
`Drop` implementation calls the context destructor exactly on non-null
pointers. -/
theorem uninitialized_never_deletes (w : World) (freshId : Nat) :
    FontStash.raw (FontStash.uninitialized freshId w).1
      (FontStash.uninitialized freshId w).2 = none ∧
    FonsContextDrop.drop
      ((FontStash.uninitialized freshId w).1.rcCell
        (FontStash.uninitialized freshId w).2.fonsId) = [] ∧
    (∀ c : FonsContextDrop, c.raw = none → FonsContextDrop.drop c = []) ∧
    (∀ c : FonsContextDrop, ∀ p, c.raw = some p →
      FonsContextDrop.drop c = [p]) := by
  refine ⟨?_, ?_, fun c hc => ?_, fun c p hc => ?_⟩
  · simp [FontStash.raw, FontStash.uninitialized]
  · simp [FontStash.uninitialized, FonsContextDrop.drop]
  · simp [FonsContextDrop.drop, hc]
  · simp [FonsContextDrop.drop, hc]

/-- Witness for C9: dropping the cell of a never-initialized handle performs
no destructor call, while a non-null cell is destroyed exactly once. -/
theorem uninitialized_never_deletes_witness :
    FonsContextDrop.drop
      ((FontStash.uninitialized 3 emptyWorld).1.rcCell
        (FontStash.uninitialized 3 emptyWorld).2.fonsId) = [] ∧
    FonsContextDrop.drop ⟨some 7⟩ = [7] :=
  ⟨(uninitialized_never_deletes emptyWorld 3).2.1,
   (uninitialized_never_deletes emptyWorld 3).2.2.2 ⟨some 7⟩ 7 rfl⟩

/-- C10: for every text and every behaviour of the underlying C measurement
function, `text_size_oneline` equals the componentwise differences of
`text_bounds_oneline` taken at the origin. -/
theorem text_size_eq_bounds_diff (tb : Int → Int → List Nat → FonsBounds)
    (text : List Nat) :
    text_size_oneline tb text =
      ((text_bounds_oneline tb (0, 0) text).maxx -
        (text_bounds_oneline tb (0, 0) text).minx,
       (text_bounds_oneline tb (0, 0) text).maxy -
        (text_bounds_oneline tb (0, 0) text).miny) := rfl

/-- C1: constructing a text layout iterator when the current style's font
index is unset/invalid returns `Err(FoundNoFont)` — decided at construction,
for every text, before any codepoint is processed — and in that case the
iterator loop produces zero quads. -/
theorem text_iter_no_font (eng : FontEngine) (w : World) (s : FontStash)
    (text : List Nat)
    (h : ¬ (0 ≤ (w.ctxOf s).cur.font ∧
      (w.ctxOf s).cur.font < ((w.ctxOf s).fonts.length : Int))) :
    text_iter w s text = Except.error FonsError.foundNoFont ∧
    textIterQuads eng (w.ctxOf s) (text_iter w s text) = [] := by
  have hinit : fonsTextIterInit (w.ctxOf s) = 0 := by
    simp only [fonsTextIterInit, if_neg h]
  constructor
  · simp [text_iter, FonsTextIter.from_text, hinit]
  · simp [textIterQuads, text_iter, FonsTextIter.from_text, hinit]

/-- Witness for C1: a context with no font ever set rejects layout of a
nonempty text with `FoundNoFont`, producing zero quads. -/
theorem text_iter_no_font_witness :
    text_iter emptyWorld ⟨0⟩ [65, 66] = Except.error FonsError.foundNoFont ∧
    textIterQuads trivialEngine (emptyWorld.ctxOf ⟨0⟩)
      (text_iter emptyWorld ⟨0⟩ [65, 66]) = [] :=
  text_iter_no_font trivialEngine emptyWorld ⟨0⟩ [65, 66] (by decide)

/-- C8: cloning a handle yields a handle to the same underlying context (the
same raw pointer), increments only that cell's reference count, duplicates and
modifies no context state (font table, atlas, glyph cache and style stack of
the referenced context are untouched), and the iterator built by
`from_text`/`text_iter` holds such a shared handle. -/
theorem clone_shares_context (w : World) (s : FontStash) :
    FontStash.raw (FontStash.clone w s).1 (FontStash.clone w s).2 =
      FontStash.raw w s ∧
    (FontStash.clone w s).2.fonsId = s.fonsId ∧
    (FontStash.clone w s).1.ctxMem = w.ctxMem ∧
    (FontStash.clone w s).1.rcCell = w.rcCell ∧
    (FontStash.clone w s).1.rcCount s.fonsId = w.rcCount s.fonsId + 1 ∧
    (∀ j, j ≠ s.fonsId →
      (FontStash.clone w s).1.rcCount j = w.rcCount j) ∧
    ((FontStash.clone w s).1.ctxOf (FontStash.clone w s).2).fonts =
      (w.ctxOf s).fonts ∧
    ((FontStash.clone w s).1.ctxOf (FontStash.clone w s).2).atlas =
      (w.ctxOf s).atlas ∧
    ((FontStash.clone w s).1.ctxOf (FontStash.clone w s).2).cache =
      (w.ctxOf s).cache ∧
    ((FontStash.clone w s).1.ctxOf (FontStash.clone w s).2).states =
      (w.ctxOf s).states ∧
    (∀ text it, FonsTextIter.from_text w s text = Except.ok it →
      it.stash.fonsId = s.fonsId) := by
  refine ⟨rfl, rfl, rfl, rfl, by simp [FontStash.clone],
    fun j hj => by simp [FontStash.clone, hj], rfl, rfl, rfl, rfl,
    fun text it hit => ?_⟩
  by_cases hres : fonsTextIterInit (w.ctxOf s) = 0
  · simp [FonsTextIter.from_text, hres] at hit
  · rw [FonsTextIter.from_text, if_neg hres] at hit
    cases hit
    rfl

/-- Concrete text iterator that `from_text` builds over `readyWorld`. -/
def readyIter : FonsTextIter :=
  { stash := ⟨0⟩, snap := readyStyle, cps := [65], pen := 0,
    prev := none, is_running := true }

/-- Witness for C8 at a concrete world: a distinct cell's count is untouched
by the clone, and a successfully constructed iterator shares the handle. -/
theorem clone_shares_context_witness :
    (FontStash.clone readyWorld ⟨0⟩).1.rcCount 5 = readyWorld.rcCount 5 ∧
    readyIter.stash.fonsId = FontStash.fonsId ⟨0⟩ :=
  ⟨(clone_shares_context readyWorld ⟨0⟩).2.2.2.2.2.1 5 (by decide),
   (clone_shares_context readyWorld ⟨0⟩).2.2.2.2.2.2.2.2.2.2 [65] readyIter rfl⟩

/-- Unfolding lemma for the layout loop at a codepoint whose glyph lookup
succeeds. -/
theorem runFrom_cons_some {eng : FontEngine} {st : StyleState} {cp : Nat}
    {rest : List Nat} {c : Cache} {a : Atlas} {pen : Int} {prev : Option Nat}
    {g : Glyph} {c' : Cache} {a' : Atlas}
    (hg : getGlyph eng c a (gkey st cp (pen + eng.kern prev cp)) =
      (some g, c', a')) :
    runFrom eng st (cp :: rest) c a pen prev =
      (mkQuad (pen + eng.kern prev cp) g ::
        (runFrom eng st rest c' a'
          (pen + eng.kern prev cp + g.xadv + st.spacing) (some cp)).1,
       (runFrom eng st rest c' a'
          (pen + eng.kern prev cp + g.xadv + st.spacing) (some cp)).2) := by
  simp only [runFrom, hg]

/-- Unfolding lemma for the layout loop at a codepoint whose glyph is
dropped: the codepoint is skipped, and the state the failed attempt left
(including a persisting expansion) is carried forward. -/
theorem runFrom_cons_none {eng : FontEngine} {st : StyleState} {cp : Nat}
    {rest : List Nat} {c : Cache} {a : Atlas} {pen : Int} {prev : Option Nat}
    {c' : Cache} {a' : Atlas}
    (hg : getGlyph eng c a (gkey st cp (pen + eng.kern prev cp)) =
      (none, c', a')) :
    runFrom eng st (cp :: rest) c a pen prev =
      runFrom eng st rest c' a' pen none := by
  simp only [runFrom, hg]

/-- A freshly inserted cache entry is found. -/
theorem cacheFind_cons_self (c : Cache) (k : GKey) (g : Glyph) :
    cacheFind ((k, g) :: c) k = some g := by
  simp [cacheFind]

/-- Inserting a different key does not change a lookup. -/
theorem cacheFind_cons_ne {c : Cache} {k' k : GKey} {g' : Glyph}
    (hne : k' ≠ k) :
    cacheFind ((k', g') :: c) k = cacheFind c k := by
  simp [cacheFind, hne]

/-- On a cache hit `getGlyph` returns the cached record and mutates
nothing. -/
theorem getGlyph_hit {eng : FontEngine} {c : Cache} {a : Atlas} {k : GKey}
    {g : Glyph} (hfind : cacheFind c k = some g) :
    getGlyph eng c a k = (some g, c, a) := by
  unfold getGlyph
  rw [hfind]

/-- When `getGlyph` produces a glyph, either it was a cache hit (state
untouched) or a miss whose record was inserted at the head of the cache. -/
theorem getGlyph_some_spec {eng : FontEngine} {c : Cache} {a : Atlas}
    {k : GKey} {g : Glyph} {c' : Cache} {a' : Atlas}
    (h : getGlyph eng c a k = (some g, c', a')) :
    (cacheFind c k = some g ∧ c' = c ∧ a' = a) ∨
    (cacheFind c k = none ∧ c' = (k, g) :: c) := by
  unfold getGlyph at h
  cases hfind : cacheFind c k with
  | some g0 =>
    simp only [hfind] at h
    simp only [Prod.mk.injEq, Option.some.injEq] at h
    obtain ⟨rfl, rfl, rfl⟩ := h
    exact Or.inl ⟨rfl, rfl, rfl⟩
  | none =>
    simp only [hfind] at h
    cases halloc : a.alloc (eng.metrics k).w (eng.metrics k).h with
    | some ra =>
      obtain ⟨r0, a0⟩ := ra
      simp only [halloc] at h
      simp only [Prod.mk.injEq, Option.some.injEq] at h
      obtain ⟨rfl, rfl, rfl⟩ := h
      exact Or.inr ⟨rfl, rfl⟩
    | none =>
      simp only [halloc] at h
      cases halloc2 : (a.expand).alloc (eng.metrics k).w (eng.metrics k).h with
      | some ra =>
        obtain ⟨r0, a0⟩ := ra
        simp only [halloc2] at h
        simp only [Prod.mk.injEq, Option.some.injEq] at h
        obtain ⟨rfl, rfl, rfl⟩ := h
        exact Or.inr ⟨rfl, rfl⟩
      | none =>
        simp only [halloc2] at h
        simp at h

/-- When `getGlyph` drops a glyph, the key was a cache miss and the cache is
unchanged (the atlas may have been expanded). -/
theorem getGlyph_none_spec {eng : FontEngine} {c : Cache} {a : Atlas}
    {k : GKey} {c' : Cache} {a' : Atlas}
    (h : getGlyph eng c a k = (none, c', a')) :
    c' = c ∧ cacheFind c k = none := by
  unfold getGlyph at h
  cases hfind : cacheFind c k with
  | some g0 =>
    simp only [hfind] at h
    simp at h
  | none =>
    simp only [hfind] at h
    cases halloc : a.alloc (eng.metrics k).w (eng.metrics k).h with
    | some ra =>
      obtain ⟨r0, a0⟩ := ra
      simp only [halloc] at h
      simp at h
    | none =>
      simp only [halloc] at h
      cases halloc2 : (a.expand).alloc (eng.metrics k).w (eng.metrics k).h with
      | some ra =>
        obtain ⟨r0, a0⟩ := ra
        simp only [halloc2] at h
        simp at h
      | none =>
        simp only [halloc2] at h
        simp only [Prod.mk.injEq] at h
        exact ⟨h.2.1.symm, rfl⟩

/-- A produced glyph is found in the cache `getGlyph` returns. -/
theorem getGlyph_some_found {eng : FontEngine} {c : Cache} {a : Atlas}
    {k : GKey} {g : Glyph} {c' : Cache} {a' : Atlas}
    (h : getGlyph eng c a k = (some g, c', a')) :
    cacheFind c' k = some g := by
  rcases getGlyph_some_spec h with ⟨hfind, rfl, rfl⟩ | ⟨hfind, rfl⟩
  · exact hfind
  · exact cacheFind_cons_self c k g

/-- A glyph present in the cache is still present, unchanged, after any run
of the layout loop: the cache only grows, and only with keys that were
missing. -/
theorem runFrom_preserves_found (eng : FontEngine) (st : StyleState)
    (cps : List Nat) :
    ∀ (c : Cache) (a : Atlas) (pen : Int) (prev : Option Nat) (k : GKey)
      (g : Glyph), cacheFind c k = some g →
      cacheFind (runFrom eng st cps c a pen prev).2.1 k = some g := by
  induction cps with
  | nil =>
    intro c a pen prev k g hk
    simpa [runFrom] using hk
  | cons cp rest ih =>
    intro c a pen prev k g hk
    rcases hget : getGlyph eng c a (gkey st cp (pen + eng.kern prev cp)) with
      ⟨og, cN, aN⟩
    cases og with
    | some g0 =>
      rw [runFrom_cons_some hget]
      refine ih cN aN _ (some cp) k g ?_
      rcases getGlyph_some_spec hget with ⟨hfind, rfl, rfl⟩ | ⟨hfind, rfl⟩
      · exact hk
      · by_cases he : gkey st cp (pen + eng.kern prev cp) = k
        · rw [← he, hfind] at hk
          exact absurd hk (by simp)
        · rw [cacheFind_cons_ne he]
          exact hk
    | none =>
      rw [runFrom_cons_none hget]
      obtain ⟨rfl, -⟩ := getGlyph_none_spec hget
      exact ih _ aN pen none k g hk

/-- The layout loop yields at most one quad per codepoint. -/
theorem runFrom_length_le (eng : FontEngine) (st : StyleState)
    (cps : List Nat) :
    ∀ (c : Cache) (a : Atlas) (pen : Int) (prev : Option Nat),
      (runFrom eng st cps c a pen prev).1.length ≤ cps.length := by
  induction cps with
  | nil =>
    intro c a pen prev
    simp [runFrom]
  | cons cp rest ih =>
    intro c a pen prev
    rcases hget : getGlyph eng c a (gkey st cp (pen + eng.kern prev cp)) with
      ⟨og, cN, aN⟩
    cases og with
    | some g0 =>
      rw [runFrom_cons_some hget]
      have hle := ih cN aN (pen + eng.kern prev cp + g0.xadv + st.spacing)
        (some cp)
      simp only [List.length_cons]
      omega
    | none =>
      rw [runFrom_cons_none hget]
      have hle := ih cN aN pen none
      simp only [List.length_cons]
      omega

/-- C6 counterexample: laying out the same text twice in sequence with
identical style state and nothing else mutating the glyph cache or atlas in
between can yield different quad sequences.  With a 1×1 atlas and 1×4
glyphs, laying out the two-codepoint text drops the first glyph (the
expand-retry fails but the expansion persists) and emits one quad; the rerun
over the state the first run left emits two quads. -/
theorem text_layout_rerun_differs :
    (runFrom bigGlyphEngine readyStyle [65, 65] [] tinyAtlas 0 none).1.length
      = 1 ∧
    (runFrom bigGlyphEngine readyStyle [65, 65]
        (runFrom bigGlyphEngine readyStyle [65, 65] [] tinyAtlas 0 none).2.1
        (runFrom bigGlyphEngine readyStyle [65, 65] [] tinyAtlas 0 none).2.2
        0 none).1.length = 2 := by
  decide

/-- C6 (amended): laying out the same text twice with identical style state
and no other mutation of the glyph-cache/atlas in between yields identical
quad sequences — the same atlas UV rectangles `s0,t0,s1,t1` and the same
screen rectangles `x0,y0,x1,y1`, in the same order — provided the first run
dropped no glyph, i.e. it produced one quad per codepoint; the second run
then also leaves the cache/atlas state unchanged.  The layout loop of
`FonsTextIter::next` is `runFrom`; the first run leaves the cache/atlas state
`(….2.1, ….2.2)` and the second run starts from it with the same pen
position and previous-glyph marker. -/
theorem text_layout_deterministic (eng : FontEngine) (st : StyleState)
    (cps : List Nat) :
    ∀ (c : Cache) (a : Atlas) (pen : Int) (prev : Option Nat),
      (runFrom eng st cps c a pen prev).1.length = cps.length →
      runFrom eng st cps (runFrom eng st cps c a pen prev).2.1
          (runFrom eng st cps c a pen prev).2.2 pen prev =
        runFrom eng st cps c a pen prev := by
  induction cps with
  | nil =>
    intro c a pen prev hlen
    rfl
  | cons cp rest ih =>
    intro c a pen prev hlen
    rcases hget : getGlyph eng c a (gkey st cp (pen + eng.kern prev cp)) with
      ⟨og, cN, aN⟩
    cases og with
    | some g0 =>
      rw [runFrom_cons_some hget] at hlen ⊢
      have hlen' : (runFrom eng st rest cN aN
          (pen + eng.kern prev cp + g0.xadv + st.spacing) (some cp)).1.length
          = rest.length := by
        simp only [List.length_cons] at hlen
        omega
      have hk1 := runFrom_preserves_found eng st rest cN aN
        (pen + eng.kern prev cp + g0.xadv + st.spacing) (some cp)
        (gkey st cp (pen + eng.kern prev cp)) g0 (getGlyph_some_found hget)
      rw [runFrom_cons_some (getGlyph_hit hk1)]
      rw [ih cN aN (pen + eng.kern prev cp + g0.xadv + st.spacing) (some cp)
        hlen']
    | none =>
      rw [runFrom_cons_none hget] at hlen
      have hle := runFrom_length_le eng st rest cN aN pen none
      simp only [List.length_cons] at hlen
      exfalso
      omega

/-- Witness for the amended C6 at a concrete layout in which no glyph is
dropped: two codepoints, two quads, and the rerun reproduces the run. -/
theorem text_layout_deterministic_witness :
    (runFrom trivialEngine readyStyle [65, 66] [] defaultAtlas 0 none).1.length
      = 2 ∧
    runFrom trivialEngine readyStyle [65, 66]
        (runFrom trivialEngine readyStyle [65, 66] [] defaultAtlas 0 none).2.1
        (runFrom trivialEngine readyStyle [65, 66] [] defaultAtlas 0 none).2.2
        0 none =
      runFrom trivialEngine readyStyle [65, 66] [] defaultAtlas 0 none :=
  ⟨by decide,
   text_layout_deterministic trivialEngine readyStyle [65, 66] [] defaultAtlas
     0 none (by decide)⟩

end Fontstash
